import Mathlib

/-
Verification of the mcp-markdown server (src/server.py): the bearer-token
extractor, the Google-Drive file-id resolver, the heartbeat-coordinated
export orchestrator and the convert_to_markdown tool entry point, shallowly
embedded over lists of characters (Python str) and lists of naturals
(Python bytes).
-/

/-- A Python `str` is modelled as its list of characters. -/
abbrev PyStr := List Char

/-- The characters of a Lean string literal, used to write Python string
constants from the source. -/
def pys (s : String) : PyStr := s.data

/-- ASCII lowering of one character, as Python `str.lower` acts on the
ASCII subset the server's constants live in. -/
def pyLowerChar (c : Char) : Char := c.toLower

/-- Python `s.lower()` on the ASCII subset. -/
def pyLower (s : PyStr) : PyStr := s.map pyLowerChar

/-- Python `s.startswith(p)`: `p` is an initial segment of `s`. -/
def leadsWith : PyStr → PyStr → Bool
  | [], _ => true
  | _ :: _, [] => false
  | a :: p, b :: t => a = b && leadsWith p t

/-- Python `n in h` for strings: `n` occurs contiguously inside `h`. -/
def listContains : PyStr → PyStr → Bool
  | [], n => leadsWith n []
  | c :: t, n => leadsWith n (c :: t) || listContains t n

/-- Declarative form of substring occurrence, for stating the amended
classification claim independently of `listContains`. -/
def SubSeq (n h : PyStr) : Prop := ∃ x y, h = x ++ n ++ y

/-- A character of the regex class `[a-zA-Z0-9-_]` used by
`extract_file_id`'s three patterns. -/
def isIdChar (c : Char) : Bool := c.isAlphanum || c = '-' || c = '_'

/-- A whitespace character removed by Python `str.strip` (ASCII range). -/
def pyIsSpace (c : Char) : Bool :=
  c = ' ' || c = '\t' || c = '\n' || c = '\r' || c = '\x0b' || c = '\x0c'

/-- Python `url.strip()`: whitespace removed from both ends. -/
def pyStrip (s : PyStr) : PyStr :=
  ((s.dropWhile pyIsSpace).reverse.dropWhile pyIsSpace).reverse

/-- `re.search` specialised to the server's two patterns `lit([a-zA-Z0-9-_]+)`:
try each start position left to right; at the first position where the literal
prefix is followed by a non-empty run of id characters, return that greedy run
(the capture group). -/
def searchPat (lit : PyStr) : PyStr → Option PyStr
  | [] => none
  | c :: t =>
    if leadsWith lit (c :: t) then
      if (((c :: t).drop lit.length).takeWhile isIdChar).isEmpty then searchPat lit t
      else some (((c :: t).drop lit.length).takeWhile isIdChar)
    else searchPat lit t

/-- The literal part of the first pattern `/d/([a-zA-Z0-9-_]+)`. -/
def dLit : PyStr := pys "/d/"

/-- The literal part of the second pattern `id=([a-zA-Z0-9-_]+)`. -/
def idLit : PyStr := pys "id="

/-- `GoogleDriveService.extract_file_id`: try the `/d/<id>` pattern, then the
`id=<id>` pattern, then accept the stripped input when it is one or more
id characters; otherwise `None`. -/
def extract_file_id (url : PyStr) : Option PyStr :=
  match searchPat dLit url with
  | some g => some g
  | none =>
    match searchPat idLit url with
    | some g => some g
    | none =>
      let t := pyStrip url
      if !t.isEmpty && t.all isIdChar then some t else none

/-- Spec-level regex match attempt at one start position `i`: the literal,
then the greedy non-empty run of id characters. -/
def specMatchAt (lit s : PyStr) (i : Nat) : Option PyStr :=
  if leadsWith lit (s.drop i) then
    if (((s.drop i).drop lit.length).takeWhile isIdChar).isEmpty then none
    else some (((s.drop i).drop lit.length).takeWhile isIdChar)
  else none

/-- First hit of `f` over a list of candidate positions. -/
def firstHit (f : Nat → Option PyStr) : List Nat → Option PyStr
  | [] => none
  | i :: is =>
    match f i with
    | some g => some g
    | none => firstHit f is

/-- Modelled from the spec: leftmost-position regex search, scanning every
start position of the input in order. -/
def specSearch (lit s : PyStr) : Option PyStr :=
  firstHit (specMatchAt lit s) (List.range (s.length + 1))

/-- Modelled from the spec's resolver contract: path-style `/d/<id>` first,
query-style `id=<id>` second, then the bare trimmed identifier, else NotFound. -/
def specResolve (url : PyStr) : Option PyStr :=
  match specSearch dLit url with
  | some g => some g
  | none =>
    match specSearch idLit url with
    | some g => some g
    | none =>
      let t := pyStrip url
      if !t.isEmpty && t.all isIdChar then some t else none

/-- The authentication-flavoured substrings checked by
`GoogleDriveService.__init__` on a session-construction failure. -/
def initAuthSubs : List PyStr :=
  [pys "credentials", pys "authentication", pys "unauthorized",
   pys "invalid_grant", pys "token"]

/-- The authentication-flavoured substrings checked by
`GoogleDriveService.export_to_markdown` on a blocking-export failure. -/
def exportAuthSubs : List PyStr :=
  [pys "credentials do not contain the necessary fields", pys "refresh_token",
   pys "invalid_grant", pys "unauthorized", pys "authentication", pys "token"]

/-- `any(auth_error in str(e).lower() for auth_error in subs)`. -/
def isAuthMsg (subs : List PyStr) (msg : PyStr) : Bool :=
  subs.any fun sub => listContains (pyLower msg) sub

/-- The two outcome kinds of the substring heuristic on a failure message. -/
inductive FailKind where
  | authenticationFailure
  | backendFailure
deriving DecidableEq

/-- Which `ValueError` `export_to_markdown` raises for a blocking-call
failure message: the authentication one, or the generic backend one. -/
def exportFailKind (m : PyStr) : FailKind :=
  if isAuthMsg exportAuthSubs m then .authenticationFailure else .backendFailure

/-- The failure-message list the claim states for the blocking export call:
the session-construction list (bare "credentials" included) plus
"refresh_token" and the literal phrase. -/
def claimC2Subs : List PyStr :=
  [pys "credentials", pys "authentication", pys "unauthorized",
   pys "invalid_grant", pys "token", pys "refresh_token",
   pys "credentials do not contain the necessary fields"]

/-- The classification the claim describes for a blocking-export failure. -/
def claimC2Kind (m : PyStr) : FailKind :=
  if isAuthMsg claimC2Subs m then .authenticationFailure else .backendFailure

/-- The `ValueError` message of the authentication branch, shared by
`__init__` and `export_to_markdown`. -/
def authFailedMsg : PyStr :=
  pys "Authentication failed: Invalid or expired Google Drive credentials. Please provide a valid access token."

/-- The `ValueError` message `__init__` raises for a construction failure. -/
def initClassify (m : PyStr) : PyStr :=
  if isAuthMsg initAuthSubs m then authFailedMsg
  else pys "Failed to initialize Google Drive service: " ++ m

/-- The `ValueError` message `export_to_markdown` raises for a blocking-call
failure. -/
def exportClassify (m : PyStr) : PyStr :=
  match exportFailKind m with
  | .authenticationFailure => authFailedMsg
  | .backendFailure => pys "Failed to export document: " ++ m

/-- One UTF-8 continuation byte. -/
def isCont (b : Nat) : Bool := 0x80 ≤ b && b ≤ 0xBF

/-- Strict UTF-8 decoding of one scalar value from the head of a byte list,
as Python `bytes.decode("utf-8")` accepts it: overlong encodings, surrogates
and values past U+10FFFF are rejected. -/
def decode1 : List Nat → Option (Char × List Nat)
  | [] => none
  | b :: r =>
    if b ≤ 0x7F then some (Char.ofNat b, r)
    else if 0xC2 ≤ b && b ≤ 0xDF then
      match r with
      | b1 :: r1 =>
        if isCont b1 then some (Char.ofNat ((b - 0xC0) * 0x40 + (b1 - 0x80)), r1)
        else none
      | [] => none
    else if 0xE0 ≤ b && b ≤ 0xEF then
      match r with
      | b1 :: b2 :: r2 =>
        let lo1 := if b = 0xE0 then 0xA0 else 0x80
        let hi1 := if b = 0xED then 0x9F else 0xBF
        if (lo1 ≤ b1 && b1 ≤ hi1) && isCont b2 then
          some (Char.ofNat (((b - 0xE0) * 0x40 + (b1 - 0x80)) * 0x40 + (b2 - 0x80)), r2)
        else none
      | _ => none
    else if 0xF0 ≤ b && b ≤ 0xF4 then
      match r with
      | b1 :: b2 :: b3 :: r3 =>
        let lo1 := if b = 0xF0 then 0x90 else 0x80
        let hi1 := if b = 0xF4 then 0x8F else 0xBF
        if ((lo1 ≤ b1 && b1 ≤ hi1) && isCont b2) && isCont b3 then
          some (Char.ofNat ((((b - 0xF0) * 0x40 + (b1 - 0x80)) * 0x40 + (b2 - 0x80)) * 0x40
            + (b3 - 0x80)), r3)
        else none
      | _ => none
    else none

/-- Fuelled decoding loop; the fuel is the byte count, which `decode1`
consumes at least one of per step. -/
def utf8DecodeAux : Nat → List Nat → Option PyStr
  | _, [] => some []
  | 0, _ :: _ => none
  | fuel + 1, b :: r =>
    match decode1 (b :: r) with
    | none => none
    | some (c, rest) =>
      match utf8DecodeAux fuel rest with
      | none => none
      | some cs => some (c :: cs)

/-- Python `bytes.decode("utf-8")`: the decoded string, or `None` for a
`UnicodeDecodeError`. -/
def utf8Decode (bs : List Nat) : Option PyStr := utf8DecodeAux bs.length bs

/-- A raw ASGI header pair, name and value as byte lists. -/
abbrev HeaderPair := List Nat × List Nat

/-- The structured request's header-lookup object (`request.headers`): a
dict-like `get` whose attribute access may itself raise (`Except.error ()`
models a raised Python exception). -/
structure HeadersView where
  get : PyStr → Except Unit (Option PyStr)

/-- The structured request object; `headers = none` models
`hasattr(request, "headers")` being false. -/
structure RequestView where
  headers : Option HeadersView

/-- The ASGI scope dict: `headers = none` models `"headers" not in scope`. -/
structure ScopeView where
  headers : Option (List HeaderPair)

/-- `ctx.request_context`: `request = .ok none` models a missing or falsy
`request_context.request`; `scope = .ok none` a missing or falsy scope.
An `.error` models the attribute access raising. -/
structure RequestContextView where
  request : Except Unit (Option RequestView)
  scope : Except Unit (Option ScopeView)

/-- The inbound `Context`: `request_context = .ok none` models a falsy
`ctx.request_context`. -/
structure CtxE where
  request_context : Except Unit (Option RequestContextView)

/-- The raw-pairs loop of `extract_bearer_token`: decode name and value,
skip the pair on a `UnicodeDecodeError`, match the lowered name against
`authorization`, and on a `Bearer ` value return the rest; a matching name
with another value only logs and the scan continues. -/
def scanPairs : List HeaderPair → Option PyStr
  | [] => none
  | (k, v) :: rest =>
    match utf8Decode k, utf8Decode v with
    | some kn, some vn =>
      if pyLower kn = pys "authorization" then
        if leadsWith (pys "Bearer ") vn then some (vn.drop 7) else scanPairs rest
      else scanPairs rest
    | _, _ => scanPairs rest

/-- The structured branch of `extract_bearer_token`:
`headers.get("authorization") or headers.get("Authorization")` (Python `or`
takes the second only when the first is `None` or empty), then the
`Bearer ` prefix check with slice `[7:]`. -/
def structuredStage (rc : RequestContextView) : Except Unit (Option PyStr) :=
  match rc.request with
  | .error e => .error e
  | .ok none => .ok none
  | .ok (some req) =>
    match req.headers with
    | none => .ok none
    | some hv =>
      match hv.get (pys "authorization") with
      | .error e => .error e
      | .ok a =>
        match
          (match a with
           | some s => if s.isEmpty then hv.get (pys "Authorization") else .ok (some s)
           | none => hv.get (pys "Authorization"))
        with
        | .error e => .error e
        | .ok none => .ok none
        | .ok (some h) =>
          .ok (if leadsWith (pys "Bearer ") h then some (h.drop 7) else none)

/-- The body of `extract_bearer_token` before its outer `try`/`except`:
structured branch first, then the ASGI-scope raw-pairs scan. -/
def extractCore (ctx : CtxE) : Except Unit (Option PyStr) :=
  match ctx.request_context with
  | .error e => .error e
  | .ok none => .ok none
  | .ok (some rc) =>
    match structuredStage rc with
    | .error e => .error e
    | .ok (some t) => .ok (some t)
    | .ok none =>
      match rc.scope with
      | .error e => .error e
      | .ok none => .ok none
      | .ok (some sc) =>
        match sc.headers with
        | none => .ok none
        | some hs => .ok (scanPairs hs)

/-- `extract_bearer_token` with its raising behaviour visible in the type:
the outer `except Exception` turns any raised error into `None`, so the
result is always `.ok`. -/
def extract_bearer_token_impl (ctx : CtxE) : Except Unit (Option PyStr) :=
  match extractCore ctx with
  | .ok r => .ok r
  | .error _ => .ok none

/-- `extract_bearer_token` as its callers see it: a total function to an
optional token. -/
def extract_bearer_token (ctx : CtxE) : Option PyStr :=
  match extract_bearer_token_impl ctx with
  | .ok r => r
  | .error _ => none

/-- A pure (never-raising) header-lookup object. -/
structure PHeaders where
  get : PyStr → Option PyStr

/-- A pure structured request object. -/
structure PRequest where
  headers : Option PHeaders

/-- A pure request context. -/
structure PRequestContext where
  request : Option PRequest
  scope : Option ScopeView

/-- A pure inbound context: the request view when no attribute access or
header lookup raises. -/
structure PCtx where
  request_context : Option PRequestContext

/-- A pure header-lookup object embedded into the raising model. -/
def pureHeaders (h : PHeaders) : HeadersView := ⟨fun k => .ok (h.get k)⟩

/-- A pure request context embedded into the raising model. -/
def pureRC (rc : PRequestContext) : RequestContextView :=
  ⟨.ok (rc.request.map fun req => ⟨req.headers.map pureHeaders⟩), .ok rc.scope⟩

/-- A pure context embedded into the raising model: every access returns
`.ok`. -/
def pureCtx (p : PCtx) : CtxE := ⟨.ok (p.request_context.map pureRC)⟩

/-- Modelled from the spec: the structured stage of the extraction chain,
consulting the `authorization` header under its lower-case then capitalised
spelling and stripping the `Bearer ` prefix. -/
def specStructuredLookup (h : PHeaders) : Option PyStr :=
  let a :=
    match h.get (pys "authorization") with
    | some s => if s.isEmpty then h.get (pys "Authorization") else some s
    | none => h.get (pys "Authorization")
  match a with
  | some v => if leadsWith (pys "Bearer ") v then some (v.drop 7) else none
  | none => none

/-- Modelled from the spec: one raw pair either yields a token (name decodes
and lowers to `authorization`, value decodes and carries the `Bearer `
prefix) or is passed over. -/
def specPairHit (kv : HeaderPair) : Option PyStr :=
  match utf8Decode kv.1, utf8Decode kv.2 with
  | some kn, some vn =>
    if pyLower kn = pys "authorization" && leadsWith (pys "Bearer ") vn then
      some (vn.drop 7)
    else none
  | _, _ => none

/-- Modelled from the spec: the raw-pairs stage returns the first pair that
yields a token. -/
def specScanPairs (ps : List HeaderPair) : Option PyStr := ps.findSome? specPairHit

/-- Modelled from the spec: the two-stage extraction chain of §4.2 — the
structured shape first, the raw-pairs shape only when the structured one is
unavailable or yields no usable Bearer header, Absent otherwise. -/
def specExtract (p : PCtx) : Option PyStr :=
  match p.request_context with
  | none => none
  | some rc =>
    let structured :=
      match rc.request with
      | some req =>
        match req.headers with
        | some h => specStructuredLookup h
        | none => none
      | none => none
    match structured with
    | some t => some t
    | none =>
      match rc.scope with
      | some sc =>
        match sc.headers with
        | some hs => specScanPairs hs
        | none => none
      | none => none

/-- `GoogleDriveService._send_periodic_progress` under the cooperative
asyncio schedule, in discrete heartbeat intervals. The blocking call
resolves strictly between ticks `s` and `s + 1`, so `stop_progress` is set
there: the loop's two `stop_event.is_set()` checks read true exactly at
ticks past `s`. `t` is the current tick, `c` the next progress value
(`progress_count`, starting at 1). `failAt = some k` models a sink that
raises while delivering progress value `k`: the value is not delivered and
the surrounding `except Exception` ends the loop. -/
def send_periodic_progress (failAt : Option Nat) (s t c : Nat) : List Nat :=
  if _h1 : s < t then []
  else if _h2 : s ≤ t then []
  else if failAt = some c then []
  else c :: send_periodic_progress failAt s (t + 1) (c + 1)
termination_by s - t
decreasing_by omega

/-- The result mapping of `export_to_markdown` once the initial progress
notification went through: the blocking call's text on success, else the
`ValueError` chosen by the substring heuristic. -/
def exportResult (blocking : Except PyStr PyStr) : Except PyStr PyStr :=
  match blocking with
  | .ok content => .ok content
  | .error m => .error (exportClassify m)

/-- `GoogleDriveService.export_to_markdown` with a progress sink supplied:
the returned (or raised) outcome together with the progress values the sink
received, in delivery order. `initErr = some m` models the sink raising `m`
during the initial `report_progress(progress=0)`, which the outer `except`
classifies like any export failure before the heartbeat task ever starts;
otherwise value 0 is delivered first and the heartbeat loop runs until the
blocking call (of duration between `s` and `s + 1` intervals) resolves and
the stop-and-wait step in `finally` ends it. -/
def export_to_markdown (initErr : Option PyStr) (failAt : Option Nat) (s : Nat)
    (blocking : Except PyStr PyStr) : Except PyStr PyStr × List Nat :=
  match initErr with
  | some m => (.error (exportClassify m), [])
  | none => (exportResult blocking, 0 :: send_periodic_progress failAt s 0 1)

/-- One observable event of an orchestrator run, in order: a progress value
delivered to the sink, or the orchestrator returning its outcome. -/
inductive PEvent where
  | progress (n : Nat)
  | returned
deriving DecidableEq

/-- The ordered observable trace of one `export_to_markdown` run with a
sink: every delivered progress value, then the return. The return comes
last because the `finally` block sets `stop_progress` and waits for the
heartbeat task (cancelling it on timeout) before the coroutine returns. -/
def orchTrace (failAt : Option Nat) (s : Nat) (blocking : Except PyStr PyStr) :
    List PEvent :=
  ((export_to_markdown none failAt s blocking).2).map PEvent.progress ++ [PEvent.returned]

/-- One backend interaction of the tool entry point. -/
inductive BEvent where
  | buildSession (tok : PyStr)
  | exportCall (fid : PyStr)
deriving DecidableEq

/-- The export backend as `convert_to_markdown` drives it:
`build tok = some m` models `GoogleDriveService.__init__` raising an
exception with message `m`; `exportDoc` is the blocking export's result. -/
structure Backend where
  build : PyStr → Option PyStr
  exportDoc : PyStr → Except PyStr PyStr

/-- What the tool call returns to the protocol server: the markdown text,
or a raised `ToolError` message. -/
inductive Outcome where
  | success (text : PyStr)
  | toolError (msg : PyStr)
deriving DecidableEq

/-- The `ToolError` message for a missing (or empty, hence falsy) token. -/
def authRequiredMsg : PyStr :=
  pys "Authentication required: Please provide a valid Bearer token in the Authorization header."

/-- The `convert_to_markdown` tool: extract the token (empty counts as
missing), construct the Drive service, resolve the file id, run the export;
`ValueError`s from construction and export surface as
`Document conversion failed:` tool errors. The second component records
the backend interactions in order. -/
def convert_to_markdown (B : Backend) (ctx : CtxE) (url : PyStr) :
    Outcome × List BEvent :=
  match extract_bearer_token ctx with
  | none => (.toolError authRequiredMsg, [])
  | some tok =>
    if tok.isEmpty then (.toolError authRequiredMsg, [])
    else
      match B.build tok with
      | some m =>
        (.toolError (pys "Document conversion failed: " ++ initClassify m),
         [.buildSession tok])
      | none =>
        match extract_file_id url with
        | none =>
          (.toolError (pys "Invalid URL format: Could not extract file ID from URL: " ++ url),
           [.buildSession tok])
        | some fid =>
          match exportResult (B.exportDoc fid) with
          | .ok content => (.success content, [.buildSession tok, .exportCall fid])
          | .error m =>
            (.toolError (pys "Document conversion failed: " ++ m),
             [.buildSession tok, .exportCall fid])

/-- A context whose `request_context` carries no structured request and whose
scope holds the given raw header pairs: the shape that exercises only the
raw-pairs stage of the extraction chain. -/
def rawPairsCtx (ps : List HeaderPair) : CtxE :=
  pureCtx ⟨some ⟨none, some ⟨some ps⟩⟩⟩

/-- A context whose `request_context` attribute access itself raises. -/
def throwingCtx : CtxE := ⟨.error ()⟩

/-- A structured header lookup carrying `authorization: Bearer tok`. -/
def gTok : PHeaders :=
  ⟨fun k => if k = pys "authorization" then some (pys "Bearer tok") else none⟩

/-- A concrete inbound context carrying the bearer token `tok`. -/
def ctxTok : CtxE := pureCtx ⟨some ⟨some ⟨some gTok⟩, none⟩⟩

/-- A structured header lookup whose Authorization value is exactly
`Bearer ` with nothing after the prefix. -/
def gEmpty : PHeaders :=
  ⟨fun k => if k = pys "authorization" then some (pys "Bearer ") else none⟩

/-- A backend whose session construction succeeds and whose export returns
a fixed markdown text. -/
def backendOk : Backend := ⟨fun _ => none, fun _ => .ok (pys "# ok")⟩

theorem leadsWith_iff : ∀ (p s : PyStr), leadsWith p s = true ↔ ∃ r, s = p ++ r := by
  intro p
  induction p with
  | nil => intro s; simp [leadsWith]
  | cons a p ih =>
    intro s
    cases s with
    | nil => simp [leadsWith]
    | cons b t =>
      rw [leadsWith, Bool.and_eq_true, decide_eq_true_eq, ih]
      constructor
      · rintro ⟨rfl, r, rfl⟩; exact ⟨r, rfl⟩
      · rintro ⟨r, h⟩
        cases h
        exact ⟨rfl, r, rfl⟩

theorem listContains_iff : ∀ (h n : PyStr), listContains h n = true ↔ SubSeq n h := by
  intro h n
  induction h with
  | nil =>
    rw [listContains, leadsWith_iff]
    constructor
    · rintro ⟨r, hr⟩
      rcases List.append_eq_nil.mp hr.symm with ⟨rfl, rfl⟩
      exact ⟨[], [], rfl⟩
    · rintro ⟨x, y, hx⟩
      rcases List.append_eq_nil.mp hx.symm with ⟨hxy, rfl⟩
      rcases List.append_eq_nil.mp hxy with ⟨rfl, rfl⟩
      exact ⟨[], rfl⟩
  | cons c t ih =>
    rw [listContains, Bool.or_eq_true, leadsWith_iff, ih]
    constructor
    · rintro (⟨r, hr⟩ | ⟨x, y, hx⟩)
      · exact ⟨[], r, by simpa using hr⟩
      · exact ⟨c :: x, y, by simp [hx]⟩
    · rintro ⟨x, y, hx⟩
      cases x with
      | nil => exact .inl ⟨y, by simpa using hx⟩
      | cons d x' =>
        rw [List.cons_append, List.cons_append] at hx
        cases hx
        exact .inr ⟨x', y, rfl⟩

theorem searchPat_sound (lit : PyStr) :
    ∀ (s g : PyStr), searchPat lit s = some g → g ≠ [] ∧ ∀ c ∈ g, isIdChar c = true := by
  intro s
  induction s with
  | nil => intro g h; simp [searchPat] at h
  | cons c t ih =>
    intro g h
    rw [searchPat] at h
    by_cases hl : leadsWith lit (c :: t) = true
    · rw [if_pos hl] at h
      by_cases he : (((c :: t).drop lit.length).takeWhile isIdChar).isEmpty = true
      · rw [if_pos he] at h
        exact ih g h
      · rw [if_neg he] at h
        cases h
        refine ⟨by simpa [List.isEmpty_iff] using he, ?_⟩
        intro x hx
        have := List.all_takeWhile (l := (c :: t).drop lit.length) (p := isIdChar)
        exact (List.all_eq_true.mp this) x hx
    · rw [if_neg hl] at h
      exact ih g h

theorem firstHit_map_succ (f : Nat → Option PyStr) (l : List Nat) :
    firstHit f (l.map Nat.succ) = firstHit (fun i => f (i + 1)) l := by
  induction l with
  | nil => rfl
  | cons i is ih =>
    rw [List.map_cons, firstHit, firstHit, Nat.succ_eq_add_one, ih]

theorem specMatchAt_succ (lit : PyStr) (c : Char) (t : PyStr) (i : Nat) :
    specMatchAt lit (c :: t) (i + 1) = specMatchAt lit t i := by
  rw [specMatchAt, specMatchAt, List.drop_succ_cons]

theorem searchPat_eq_specSearch (lit : PyStr) : ∀ s, searchPat lit s = specSearch lit s := by
  intro s
  induction s with
  | nil =>
    rw [searchPat, specSearch]
    have h1 : List.range (([] : PyStr).length + 1) = [0] := by decide
    rw [h1, firstHit, specMatchAt]
    by_cases hl : leadsWith lit (List.drop 0 ([] : PyStr)) = true
    · rw [if_pos hl]
      simp [firstHit]
    · rw [if_neg hl]
      simp [firstHit]
  | cons c t ih =>
    rw [specSearch]
    have hlen : (c :: t).length + 1 = (t.length + 1) + 1 := by simp
    rw [hlen, List.range_succ_eq_map, firstHit, firstHit_map_succ]
    have hshift : (fun i => specMatchAt lit (c :: t) (i + 1)) = specMatchAt lit t := by
      funext i
      exact specMatchAt_succ lit c t i
    rw [hshift]
    have hrest : firstHit (specMatchAt lit t) (List.range (t.length + 1)) = specSearch lit t := rfl
    rw [hrest, ← ih, searchPat, specMatchAt, List.drop_zero]
    by_cases hl : leadsWith lit (c :: t) = true
    · rw [if_pos hl, if_pos hl]
      by_cases he : (((c :: t).drop lit.length).takeWhile isIdChar).isEmpty = true
      · rw [if_pos he, if_pos he]
      · rw [if_neg he, if_neg he]
    · rw [if_neg hl, if_neg hl]

theorem map_succ_shift (c : Nat) (l : List Nat) :
    (l.map Nat.succ).map (c + ·) = l.map ((c + 1) + ·) := by
  rw [List.map_map]
  have : ((c + ·) ∘ Nat.succ) = ((c + 1) + ·) := by
    funext i
    simp [Function.comp]
    omega
  rw [this]

theorem send_periodic_progress_eq :
    ∀ (n : Nat) (f : Option Nat) (s t c : Nat), s - t = n →
      send_periodic_progress f s t c =
        match f with
        | none => (List.range n).map (c + ·)
        | some k => ((List.range n).map (c + ·)).takeWhile (fun v => v != k) := by
  intro n
  induction n with
  | zero =>
    intro f s t c h
    rw [send_periodic_progress]
    by_cases h1 : s < t
    · rw [dif_pos h1]
      cases f <;> simp
    · rw [dif_neg h1, dif_pos (by omega)]
      cases f <;> simp
  | succ n ih =>
    intro f s t c h
    have ht : t < s := by omega
    rw [send_periodic_progress, dif_neg (by omega), dif_neg (by omega),
      List.range_succ_eq_map]
    cases f with
    | none =>
      rw [if_neg (by simp)]
      rw [ih none s (t + 1) (c + 1) (by omega)]
      rw [List.map_cons, map_succ_shift]
      simp
    | some k =>
      by_cases hk : k = c
      · rw [if_pos (by rw [hk])]
        simp [hk, List.takeWhile_cons]
      · rw [if_neg (by simp; exact fun hkc => hk hkc)]
        rw [ih (some k) s (t + 1) (c + 1) (by omega)]
        rw [List.map_cons, map_succ_shift]
        simp [List.takeWhile_cons, Nat.add_zero, bne_iff_ne, Ne.symm hk]

theorem send_periodic_progress_none (s c : Nat) :
    send_periodic_progress none s 0 c = (List.range s).map (c + ·) :=
  send_periodic_progress_eq s none s 0 c (by omega)

theorem send_periodic_progress_fail (s c k : Nat) :
    send_periodic_progress (some k) s 0 c =
      ((List.range s).map (c + ·)).takeWhile (fun v => v != k) :=
  send_periodic_progress_eq s (some k) s 0 c (by omega)

theorem scanPairs_eq_spec : ∀ ps, scanPairs ps = specScanPairs ps := by
  intro ps
  induction ps with
  | nil => rfl
  | cons kv rest ih =>
    obtain ⟨k, v⟩ := kv
    rw [scanPairs, specScanPairs, List.findSome?_cons]
    have hrest : List.findSome? specPairHit rest = specScanPairs rest := rfl
    cases hk : utf8Decode k with
    | none => simp [specPairHit, hk, hrest, ih]
    | some kn =>
      cases hv : utf8Decode v with
      | none => simp [specPairHit, hk, hv, hrest, ih]
      | some vn =>
        by_cases hname : pyLower kn = pys "authorization"
        · by_cases hb : leadsWith (pys "Bearer ") vn = true
          · simp [specPairHit, hk, hv, hname, hb]
          · simp [specPairHit, hk, hv, hname, hb, hrest, ih]
        · simp [specPairHit, hk, hv, hname, hrest, ih]

theorem structuredStage_pure (rc : PRequestContext) :
    structuredStage (pureRC rc) =
      .ok (match rc.request with
           | some req =>
             match req.headers with
             | some h => specStructuredLookup h
             | none => none
           | none => none) := by
  cases rc with
  | mk req? sc? =>
    cases req? with
    | none => rfl
    | some req =>
      cases hh : req.headers with
      | none => simp [structuredStage, pureRC, hh]
      | some h =>
        simp only [structuredStage, pureRC, hh, Option.map_some', pureHeaders,
          specStructuredLookup]
        cases ha : h.get (pys "authorization") with
        | none =>
          cases hb : h.get (pys "Authorization") with
          | none => rfl
          | some v => rfl
        | some s =>
          by_cases hs : s.isEmpty = true
          · cases hb : h.get (pys "Authorization") with
            | none => simp [hs, hb]
            | some v => simp [hs, hb]
          · simp [hs]

theorem scanPairs_skip (k v : List Nat) (rest : List HeaderPair)
    (hbad : utf8Decode k = none ∨ utf8Decode v = none) :
    scanPairs ((k, v) :: rest) = scanPairs rest := by
  rw [scanPairs]
  rcases hbad with hbk | hbv
  · rw [hbk]
  · rw [hbv]
    cases utf8Decode k <;> rfl

theorem scanPairs_hit (k v : List Nat) (rest : List HeaderPair) (kn vn : PyStr)
    (hk : utf8Decode k = some kn) (hname : pyLower kn = pys "authorization")
    (hv : utf8Decode v = some vn) (hb : leadsWith (pys "Bearer ") vn = true) :
    scanPairs ((k, v) :: rest) = some (vn.drop 7) := by
  rw [scanPairs, hk, hv]
  simp [hname, hb]

theorem extract_rawPairsCtx (ps : List HeaderPair) :
    extract_bearer_token (rawPairsCtx ps) = scanPairs ps := by
  rw [rawPairsCtx, extract_bearer_token, extract_bearer_token_impl, extractCore]
  simp only [pureCtx, Option.map_some']
  rw [structuredStage_pure]
  rfl

/-- C1: for every orchestrator run with a progress sink supplied (and a
well-behaved sink), progress value 0 is delivered first, every later
heartbeat value is the next consecutive integer in strictly increasing
order, and the orchestrator's return event comes after every progress
delivery: the observable trace is exactly
`progress 0, progress 1, …, progress s, returned`. -/
theorem C1_progress_trace : ∀ (s : Nat) (blocking : Except PyStr PyStr),
    orchTrace none s blocking =
      (List.range (s + 1)).map PEvent.progress ++ [PEvent.returned] := by
  intro s blocking
  have h1 : (fun i : Nat => 1 + i) = Nat.succ := by
    funext i
    omega
  have hlist : (0 :: send_periodic_progress none s 0 1) = List.range (s + 1) := by
    rw [send_periodic_progress_none, List.range_succ_eq_map, h1]
  rw [orchTrace]
  simp only [export_to_markdown]
  rw [hlist]

/-- C2 counterexample: the blocking-export failure message "bad credentials"
contains the claimed substring "credentials", so the claim classifies it as
an authentication failure, but the code's `export_to_markdown` list has no
bare "credentials" entry and reports a backend failure. -/
theorem C2_bare_credentials_cex :
    claimC2Kind (pys "bad credentials") = .authenticationFailure ∧
    exportFailKind (pys "bad credentials") = .backendFailure := by decide

/-- C2 amended: a blocking-export failure reports AuthenticationFailure
exactly when its lowered message contains one of the six substrings of the
blocking-call list — "credentials do not contain the necessary fields",
"refresh_token", "invalid_grant", "unauthorized", "authentication",
"token"; bare "credentials" is checked only at session construction. Any
other message reports BackendFailure. -/
theorem C2_export_auth_iff : ∀ m : PyStr,
    exportFailKind m = .authenticationFailure ↔
      ∃ sub ∈ exportAuthSubs, SubSeq sub (pyLower m) := by
  intro m
  rw [exportFailKind]
  constructor
  · intro h
    by_cases ha : isAuthMsg exportAuthSubs m = true
    · rw [isAuthMsg, List.any_eq_true] at ha
      obtain ⟨sub, hmem, hc⟩ := ha
      exact ⟨sub, hmem, (listContains_iff _ _).1 hc⟩
    · rw [if_neg ha] at h
      simp at h
  · rintro ⟨sub, hmem, hss⟩
    have ha : isAuthMsg exportAuthSubs m = true := by
      rw [isAuthMsg, List.any_eq_true]
      exact ⟨sub, hmem, (listContains_iff _ _).2 hss⟩
    rw [if_pos ha]

/-- C3: credential extraction follows the fixed two-stage priority chain of
the spec — the structured header-lookup shape first (lower-case then
capitalised `authorization` key, exact `Bearer ` prefix), the raw
byte-pairs scan only when the structured shape is unavailable or yields no
usable Bearer header, and Absent when neither yields a token. -/
theorem C3_extraction_chain : ∀ p : PCtx, extract_bearer_token (pureCtx p) = specExtract p := by
  intro p
  obtain ⟨rc?⟩ := p
  cases rc? with
  | none => rfl
  | some rc =>
    rw [extract_bearer_token, extract_bearer_token_impl, extractCore]
    simp only [pureCtx, Option.map_some']
    rw [structuredStage_pure rc]
    obtain ⟨req?, sc?⟩ := rc
    cases req? with
    | none =>
      cases sc? with
      | none => rfl
      | some sc =>
        cases hh : sc.headers with
        | none => simp [specExtract, pureRC, hh]
        | some hs => simp [specExtract, pureRC, hh, scanPairs_eq_spec]
    | some req =>
      cases hh : req.headers with
      | none =>
        cases sc? with
        | none => simp [specExtract, hh, pureRC]
        | some sc =>
          cases hsc : sc.headers with
          | none => simp [specExtract, pureRC, hh, hsc]
          | some hs => simp [specExtract, pureRC, hh, hsc, scanPairs_eq_spec]
      | some h =>
        cases hl : specStructuredLookup h with
        | some t => simp [specExtract, hh, hl]
        | none =>
          cases sc? with
          | none => simp [specExtract, hh, hl, pureRC]
          | some sc =>
            cases hsc : sc.headers with
            | none => simp [specExtract, pureRC, hh, hl, hsc]
            | some hs => simp [specExtract, pureRC, hh, hl, hsc, scanPairs_eq_spec]

/-- C4: identifier resolution applies the ordered first-match-wins chain —
leftmost `/d/<id>` match, then leftmost `id=<id>` match, then the trimmed
input when it is all id characters, else NotFound — and in particular an
input holding both patterns resolves to the `/d/` identifier even when the
`id=` pattern appears first in the string. -/
theorem C4_resolution_chain :
    (∀ url, extract_file_id url = specResolve url) ∧
    extract_file_id (pys "x?id=FIRST/d/SECOND") = some (pys "SECOND") := by
  constructor
  · intro url
    rw [extract_file_id, specResolve, searchPat_eq_specSearch, searchPat_eq_specSearch]
  · decide

/-- C5 counterexample: with a valid bearer token and the unresolvable input
`not a valid id!!`, the outcome is the invalid-URL tool error, but the
backend was invoked: the session-construction event was recorded before
identifier resolution ran, refuting "neither session construction nor the
export call happens". -/
theorem C5_session_before_resolve_cex :
    convert_to_markdown backendOk ctxTok (pys "not a valid id!!") =
      (.toolError (pys "Invalid URL format: Could not extract file ID from URL: not a valid id!!"),
       [.buildSession (pys "tok")]) := by decide

/-- C5 amended: for every inbound call carrying a non-empty bearer token
whose session construction succeeds and whose input cannot be resolved, the
outcome is the invalid-input failure and the export call is never invoked —
but session construction does happen first, so the recorded backend events
are exactly the one `buildSession`. -/
theorem C5_invalid_input_flow : ∀ (B : Backend) (ctx : CtxE) (url tok : PyStr),
    extract_bearer_token ctx = some tok → tok.isEmpty = false →
    B.build tok = none → extract_file_id url = none →
    convert_to_markdown B ctx url =
      (.toolError (pys "Invalid URL format: Could not extract file ID from URL: " ++ url),
       [.buildSession tok]) := by
  intro B ctx url tok h1 h2 h3 h4
  rw [convert_to_markdown, h1]
  simp [h2, h3, h4]

/-- C5 witness: the amended flow at a concrete context, token, backend and
unresolvable input. -/
theorem C5_invalid_input_flow_witness :
    extract_bearer_token ctxTok = some (pys "tok") ∧
    convert_to_markdown backendOk ctxTok (pys "zz!!") =
      (.toolError (pys "Invalid URL format: Could not extract file ID from URL: " ++ pys "zz!!"),
       [.buildSession (pys "tok")]) :=
  ⟨by decide,
   C5_invalid_input_flow backendOk ctxTok (pys "zz!!") (pys "tok")
     (by decide) (by decide) (by decide) (by decide)⟩

/-- C6: during the raw header-pairs scan, a pair whose name or value fails
UTF-8 decoding is skipped and the scan continues: for a pairs list with an
undecodable entry followed by a valid `authorization: Bearer <token>`
entry, extraction still returns the token. -/
theorem C6_bad_pair_skipped :
    ∀ (k v k' v' : List Nat) (rest : List HeaderPair) (kn vn : PyStr),
    (utf8Decode k = none ∨ utf8Decode v = none) →
    utf8Decode k' = some kn →
    pyLower kn = pys "authorization" →
    utf8Decode v' = some vn →
    leadsWith (pys "Bearer ") vn = true →
    extract_bearer_token (rawPairsCtx ((k, v) :: (k', v') :: rest)) = some (vn.drop 7) := by
  intro k v k' v' rest kn vn hbad hk hname hv hb
  rw [extract_rawPairsCtx, scanPairs_skip k v _ hbad,
    scanPairs_hit k' v' rest kn vn hk hname hv hb]

/-- C6 witness: a concrete undecodable pair (a lone UTF-8 lead byte)
followed by a capitalised `Authorization: Bearer tok123` entry still
yields `tok123`. -/
theorem C6_bad_pair_skipped_witness :
    extract_bearer_token (rawPairsCtx
      [([0xC3], [0x41]),
       ((pys "Authorization").map Char.toNat, (pys "Bearer tok123").map Char.toNat)]) =
      some (pys "tok123") :=
  (C6_bad_pair_skipped [0xC3] [0x41]
    ((pys "Authorization").map Char.toNat) ((pys "Bearer tok123").map Char.toNat)
    [] (pys "Authorization") (pys "Bearer tok123")
    (Or.inl (by decide)) (by decide) (by decide) (by decide) (by decide)).trans (by decide)

/-- C7: credential extraction never raises past its boundary: the function
with its raising behaviour visible in the type always returns `.ok`, and
whenever the body before the outer `except` raises, the reported result is
Absent. -/
theorem C7_never_raises : ∀ ctx : CtxE,
    extract_bearer_token_impl ctx = .ok (extract_bearer_token ctx) ∧
    (∀ e : Unit, extractCore ctx = .error e → extract_bearer_token ctx = none) := by
  intro ctx
  constructor
  · cases h : extractCore ctx <;>
      simp [extract_bearer_token, extract_bearer_token_impl, h]
  · intro e he
    simp [extract_bearer_token, extract_bearer_token_impl, he]

/-- C7 witness: a context whose request-context access itself raises still
yields Absent. -/
theorem C7_never_raises_witness : extract_bearer_token throwingCtx = none :=
  (C7_never_raises throwingCtx).2 () (by rfl)

/-- C8 counterexample: a sink failure during the initial progress-0
emission is not suppressed — with the blocking export succeeding with
`# Hi`, the orchestrator still raises the classified export failure instead
of returning the export's success text. -/
theorem C8_initial_progress_cex :
    (export_to_markdown (some (pys "sink down")) none 2 (.ok (pys "# Hi"))).1 =
      .error (pys "Failed to export document: sink down") ∧
    exportResult (.ok (pys "# Hi")) = .ok (pys "# Hi") := ⟨rfl, rfl⟩

/-- C8 amended: a sink failure during a periodic heartbeat emission is
suppressed and never changes the overall outcome (the loop merely stops at
the failing value), while a failure during the initial progress-0 emission
propagates and is classified like an export failure. -/
theorem C8_heartbeat_suppression : ∀ (f g : Option Nat) (s : Nat) (blocking : Except PyStr PyStr),
    (export_to_markdown none f s blocking).1 = (export_to_markdown none g s blocking).1 ∧
    (∀ k, send_periodic_progress (some k) s 0 1 =
      ((List.range s).map (1 + ·)).takeWhile (fun v => v != k)) ∧
    (∀ m : PyStr, (export_to_markdown (some m) f s blocking).1 = .error (exportClassify m)) := by
  intro f g s blocking
  refine ⟨rfl, ?_, ?_⟩
  · intro k
    exact send_periodic_progress_fail s 1 k
  · intro m
    rfl

/-- C9: whenever identifier resolution does not return NotFound, the
returned identifier is non-empty and consists solely of ASCII
alphanumerics, hyphens and underscores. -/
theorem C9_identifier_charset : ∀ (url g : PyStr),
    extract_file_id url = some g → g ≠ [] ∧ ∀ c ∈ g, isIdChar c = true := by
  intro url g h
  rw [extract_file_id] at h
  cases hd : searchPat dLit url with
  | some g' =>
    rw [hd] at h
    cases h
    exact searchPat_sound dLit url g hd
  | none =>
    rw [hd] at h
    cases hi : searchPat idLit url with
    | some g' =>
      rw [hi] at h
      cases h
      exact searchPat_sound idLit url g hi
    | none =>
      rw [hi] at h
      by_cases hc : (!(pyStrip url).isEmpty && (pyStrip url).all isIdChar) = true
      · rw [if_pos hc] at h
        cases h
        rw [Bool.and_eq_true, Bool.not_eq_true'] at hc
        exact ⟨by simpa [List.isEmpty_iff] using hc.1, List.all_eq_true.mp hc.2⟩
      · rw [if_neg hc] at h
        cases h

/-- C9 witness: the bare identifier `abc` resolves to itself and satisfies
the character-set invariant. -/
theorem C9_identifier_charset_witness :
    extract_file_id (pys "abc") = some (pys "abc") ∧
    (pys "abc" ≠ [] ∧ ∀ c ∈ pys "abc", isIdChar c = true) :=
  ⟨by decide, C9_identifier_charset (pys "abc") (pys "abc") (by decide)⟩

/-- C10: an Authorization value of exactly `Bearer ` makes credential
extraction return the empty token rather than Absent, and the tool entry
point then treats the empty token as missing authentication, reporting the
authentication-required failure without recording any backend event. -/
theorem C10_empty_token :
    (∀ (h : PHeaders) (sc? : Option ScopeView),
      h.get (pys "authorization") = some (pys "Bearer ") →
      extract_bearer_token (pureCtx ⟨some ⟨some ⟨some h⟩, sc?⟩⟩) = some []) ∧
    (∀ (B : Backend) (ctx : CtxE) (url : PyStr),
      extract_bearer_token ctx = some [] →
      convert_to_markdown B ctx url = (.toolError authRequiredMsg, [])) := by
  constructor
  · intro h sc? hget
    rw [extract_bearer_token, extract_bearer_token_impl, extractCore]
    simp only [pureCtx, Option.map_some']
    rw [structuredStage_pure]
    have hs : specStructuredLookup h = some [] := by
      rw [specStructuredLookup, hget]
      simp only [List.isEmpty_eq_true]
      rw [if_neg (by decide)]
      decide
    simp [hs]
  · intro B ctx url hex
    rw [convert_to_markdown, hex]
    simp

/-- C10 witness: a concrete context whose Authorization header is exactly
`Bearer ` yields the empty token, and the tool call on it reports the
authentication-required failure with no backend event. -/
theorem C10_empty_token_witness :
    extract_bearer_token (pureCtx ⟨some ⟨some ⟨some gEmpty⟩, none⟩⟩) = some [] ∧
    convert_to_markdown backendOk (pureCtx ⟨some ⟨some ⟨some gEmpty⟩, none⟩⟩) (pys "abc") =
      (.toolError authRequiredMsg, []) := by
  constructor
  · exact C10_empty_token.1 gEmpty none (by decide)
  · exact C10_empty_token.2 backendOk _ (pys "abc") (C10_empty_token.1 gEmpty none (by decide))
